import Mathlib

/-!
# Verification of the SmartPlex sync / retention / cascade-deletion core

Shallow embedding of the deletion and synchronization services of the
SmartPlex repository, together with theorems settling the specification
claims about them.

The embedding follows the Python sources:
* `apps/api/app/services/deletion_service.py` (`DeletionService.scan_for_candidates`)
* `apps/api/app/services/cascade_deletion_service.py` (`CascadeDeletionService`)
* `apps/api/app/api/routes/admin_deletion.py` (`execute_deletion`)
* `apps/api/app/api/routes/plex_sync.py` (`sync_library_generator`)

Datetimes are modelled as integer numbers of seconds; `timedelta(days = n)`
becomes `n * secondsPerDay`, and Python's `timedelta.days` attribute (floor
towards minus infinity) becomes `Int.fdiv _ secondsPerDay`.  Optional values
(`None`) become `Option`; Python truthiness of optionals is made explicit.
Calls into external systems (Plex, Sonarr, Radarr, Overseerr, the database)
are resolved by explicit environment records describing the responses, and
exceptions that escape a function are modelled with `Except`.
-/

namespace SmartPlex

/-- Number of seconds per day: the resolution of the datetime model. -/
def secondsPerDay : Int := 86400

/-! ## Retention rule evaluation (`DeletionService.scan_for_candidates`)

`deletion_service.py` lines 33-156: fetch the rule, compute
`grace_cutoff = now - timedelta(days=rule['grace_period_days'])` and
`inactivity_cutoff = now - timedelta(days=rule['inactivity_threshold_days'])`,
then filter every media item. -/

/-- One `user_stats` row joined onto a media item. -/
structure UserStat where
  last_played_at : Option Int
  play_count : Nat
deriving DecidableEq

/-- A `media_items` row as read by `scan_for_candidates`.

The fields `library` and `collections` describe which library section and
collections the content belongs to on the media server.  The code comment at
`deletion_service.py` line 71 notes the `media_items` table has no library
column; the scan never reads any library or collection information, so these
fields are carried here only to let claims about library/collection
exclusions be stated. -/
structure MediaItem where
  id : String
  plex_id : String
  title : String
  media_type : String
  added_at : Option Int
  user_stats : List UserStat
  rating : Option Rat
  genres : Option (List String)
  file_size : Option Rat
  library : String
  collections : List String
deriving DecidableEq

/-- A `deletion_rules` row (fields consumed by the scan, plus the exclusion
lists declared by the admin route models in `admin_deletion.py`). -/
structure DeletionRule where
  grace_period_days : Int
  inactivity_threshold_days : Int
  min_rating : Option Rat
  excluded_libraries : List String
  excluded_genres : List String
  excluded_collections : List String
deriving DecidableEq

/-- A candidate record as built at `deletion_service.py` lines 137-149. -/
structure Candidate where
  id : String
  plex_id : String
  title : String
  date_added : Int
  last_viewed_at : Int
  view_count : Nat
  days_since_added : Int
  days_since_viewed : Int
  rating : Option Rat
deriving DecidableEq

/-- Python truthiness of an optional number (`None` and `0` are falsy). -/
def truthyRat : Option Rat → Bool
  | none => false
  | some x => x ≠ 0

/-- Python truthiness of an optional list (`None` and `[]` are falsy). -/
def truthyList {α : Type} : Option (List α) → Bool
  | none => false
  | some l => !l.isEmpty

/-- `max((stat['last_played_at'] for stat in user_stats if present), default=date_added)`
(`deletion_service.py` lines 104-114): with no stats rows, or no row carrying
a `last_played_at`, the add date is the baseline. -/
def lastViewed (stats : List UserStat) (date_added : Int) : Int :=
  if stats.isEmpty then date_added
  else
    match stats.filterMap (fun s => s.last_played_at) with
    | [] => date_added
    | t :: ts => ts.foldl max t

/-- `sum(stat.get('play_count', 0) for stat in user_stats)`, and `0` when
there are no stats rows. -/
def viewCount (stats : List UserStat) : Nat :=
  if stats.isEmpty then 0
  else (stats.map (fun s => s.play_count)).sum

/-- The rating filter condition at `deletion_service.py` lines 124-127:
`if rule.get('min_rating') and item.get('rating'): if item['rating'] >= rule['min_rating']`.
Both optionals go through Python truthiness, so a stored value of `0` on
either side disables the check. -/
def ratingSkip (rule : DeletionRule) (item : MediaItem) : Bool :=
  truthyRat rule.min_rating && truthyRat item.rating &&
    decide (rule.min_rating.getD 0 ≤ item.rating.getD 0)

/-- The genre exclusion condition at `deletion_service.py` lines 130-134:
`if rule.get('excluded_genres') and item.get('genres'):
 if any(genre in rule['excluded_genres'] for genre in item_genres)`. -/
def genreSkip (rule : DeletionRule) (item : MediaItem) : Bool :=
  !rule.excluded_genres.isEmpty && truthyList item.genres &&
    (item.genres.getD []).any (fun g => rule.excluded_genres.contains g)

/-- Per-item body of the `scan_for_candidates` loop
(`deletion_service.py` lines 87-152), returning the candidate record when the
item qualifies.  The grace and inactivity decisions compare datetimes against
the cutoffs exactly as the code does; the `days_since_*` audit fields use the
floor day count. -/
def scanItem (rule : DeletionRule) (now : Int) (item : MediaItem) : Option Candidate :=
  match item.added_at with
  | none => none
  | some date_added =>
    let days_since_added := Int.fdiv (now - date_added) secondsPerDay
    let grace_cutoff := now - rule.grace_period_days * secondsPerDay
    if grace_cutoff < date_added then none
    else
      let last_viewed := lastViewed item.user_stats date_added
      let view_count := viewCount item.user_stats
      let days_since_viewed := Int.fdiv (now - last_viewed) secondsPerDay
      let inactivity_cutoff := now - rule.inactivity_threshold_days * secondsPerDay
      if inactivity_cutoff < last_viewed then none
      else if ratingSkip rule item then none
      else if genreSkip rule item then none
      else
        some { id := item.id, plex_id := item.plex_id, title := item.title,
               date_added := date_added, last_viewed_at := last_viewed,
               view_count := view_count, days_since_added := days_since_added,
               days_since_viewed := days_since_viewed, rating := item.rating }

/-- `DeletionService.scan_for_candidates`: the scan is a pure filter of the
item list through `scanItem`. -/
def scan_for_candidates (rule : DeletionRule) (now : Int) (items : List MediaItem) :
    List Candidate :=
  items.filterMap (scanItem rule now)

/-- Floor day counts versus datetime cutoffs: being at least `g` whole days
in the past is the same as lying at or before `now - g` days. -/
theorem fdiv_day_le_iff (g x : Int) :
    g ≤ Int.fdiv x secondsPerDay ↔ g * secondsPerDay ≤ x := by
  rw [Int.fdiv_eq_ediv x (by norm_num [secondsPerDay])]
  exact Int.le_ediv_iff_mul_le (by norm_num [secondsPerDay])

/-- C7: for a catalog item with a known `dateAdded` and no rating or
genre-exclusion override, the scan returns it as a candidate exactly when
`daysSinceAdded >= gracePeriodDays` and `daysSinceActivity >= inactivityThresholdDays`,
where the activity baseline is the most recent watch when one is recorded and
the add date otherwise (`lastViewed`); both boundaries are inclusive. -/
theorem scan_candidate_boundary_iff (rule : DeletionRule) (now : Int) (item : MediaItem)
    (d : Int) (hadd : item.added_at = some d)
    (hrating : ratingSkip rule item = false)
    (hgenre : genreSkip rule item = false) :
    (scanItem rule now item).isSome = true ↔
      (rule.grace_period_days ≤ Int.fdiv (now - d) secondsPerDay ∧
       rule.inactivity_threshold_days ≤
         Int.fdiv (now - lastViewed item.user_stats d) secondsPerDay) := by
  unfold scanItem
  rw [hadd]
  by_cases hg : now - rule.grace_period_days * secondsPerDay < d
  · have hng : ¬ rule.grace_period_days ≤ Int.fdiv (now - d) secondsPerDay := by
      rw [fdiv_day_le_iff]; omega
    simp [hg, hng]
  · by_cases hi : now - rule.inactivity_threshold_days * secondsPerDay <
        lastViewed item.user_stats d
    · have hni : ¬ rule.inactivity_threshold_days ≤
          Int.fdiv (now - lastViewed item.user_stats d) secondsPerDay := by
        rw [fdiv_day_le_iff]; omega
      simp [hg, hi, hni]
    · have h1 : rule.grace_period_days ≤ Int.fdiv (now - d) secondsPerDay := by
        rw [fdiv_day_le_iff]; omega
      have h2 : rule.inactivity_threshold_days ≤
          Int.fdiv (now - lastViewed item.user_stats d) secondsPerDay := by
        rw [fdiv_day_le_iff]; omega
      simp [hg, hi, hrating, hgenre, h1, h2]

/-- Retention rule used for the boundary instance: 30-day grace period,
90-day inactivity threshold, no overrides. -/
def ruleBoundary : DeletionRule :=
  { grace_period_days := 30, inactivity_threshold_days := 90, min_rating := none,
    excluded_libraries := [], excluded_genres := [], excluded_collections := [] }

/-- Item added exactly 30 days before the scan instant and last watched
exactly 90 days before it. -/
def itemBoundary : MediaItem :=
  { id := "it-1", plex_id := "101", title := "Boundary", media_type := "movie",
    added_at := some 0, user_stats := [{ last_played_at := some (-(60 * 86400)), play_count := 3 }],
    rating := none, genres := none, file_size := none, library := "Movies", collections := [] }

/-- Witness for C7: at `now = 30` days, `itemBoundary` sits exactly at both
boundaries and is accepted as a candidate. -/
theorem scan_candidate_boundary_iff_witness :
    itemBoundary.added_at = some 0 ∧
    ratingSkip ruleBoundary itemBoundary = false ∧
    (scanItem ruleBoundary (30 * 86400) itemBoundary).isSome = true :=
  ⟨rfl, by decide,
    (scan_candidate_boundary_iff ruleBoundary (30 * 86400) itemBoundary 0 rfl
      (by decide) (by decide)).mpr (by decide)⟩

/-- C10 (amended): when `minRating` is set to a nonzero value, an item whose
stored rating is nonzero and at or above it is never returned as a candidate. -/
theorem scan_min_rating_protects (rule : DeletionRule) (now : Int) (item : MediaItem)
    (m r : Rat) (hm : rule.min_rating = some m) (hm0 : m ≠ 0)
    (hr : item.rating = some r) (hr0 : r ≠ 0) (hle : m ≤ r) :
    scanItem rule now item = none := by
  have hskip : ratingSkip rule item = true := by
    simp [ratingSkip, truthyRat, hm, hr, hm0, hr0, hle]
  unfold scanItem
  cases hadd : item.added_at with
  | none => rfl
  | some d =>
    by_cases hg : now - rule.grace_period_days * secondsPerDay < d
    · simp [hg]
    · by_cases hi : now - rule.inactivity_threshold_days * secondsPerDay <
          lastViewed item.user_stats d
      · simp [hg, hi]
      · simp [hg, hi, hskip]

/-- Rule with a rating floor of 5 and no other restrictions. -/
def ruleFloorFive : DeletionRule :=
  { grace_period_days := 0, inactivity_threshold_days := 0, min_rating := some 5,
    excluded_libraries := [], excluded_genres := [], excluded_collections := [] }

/-- Old, inactive item rated 7. -/
def itemRatedSeven : MediaItem :=
  { id := "it-2", plex_id := "102", title := "Rated Seven", media_type := "movie",
    added_at := some 0, user_stats := [], rating := some 7, genres := none,
    file_size := none, library := "Movies", collections := [] }

/-- Witness for the amended C10: with `minRating = 5` the item rated 7 is
not a candidate. -/
theorem scan_min_rating_protects_witness :
    scanItem ruleFloorFive 86400 itemRatedSeven = none :=
  scan_min_rating_protects ruleFloorFive 86400 itemRatedSeven 5 7 rfl
    (by norm_num) rfl (by norm_num) (by norm_num)

/-- Rule whose rating floor is set to `0` (a value the admin route model
`DeletionRuleCreate` allows: `min_rating` is constrained to `ge=0, le=10`). -/
def ruleFloorZero : DeletionRule :=
  { grace_period_days := 0, inactivity_threshold_days := 0, min_rating := some 0,
    excluded_libraries := [], excluded_genres := [], excluded_collections := [] }

/-- Old, inactive item rated 8. -/
def itemRatedEight : MediaItem :=
  { id := "it-3", plex_id := "103", title := "Rated Eight", media_type := "movie",
    added_at := some 0, user_stats := [], rating := some 8, genres := none,
    file_size := none, library := "Movies", collections := [] }

/-- Counterexample to C10 as stated: `minRating` is set (to `0`) and the
item's rating `8` is at or above it, yet the item is returned as a candidate,
because `rule.get('min_rating')` is falsy for `0` and the filter is skipped. -/
theorem scan_min_rating_counterexample :
    ruleFloorZero.min_rating = some 0 ∧ ((0 : Rat) ≤ 8) ∧
    (scanItem ruleFloorZero 86400 itemRatedEight).isSome = true :=
  ⟨rfl, by norm_num, by decide⟩

/-- Rule excluding the "Kids" library and the "Classics" collection. -/
def ruleExcludeKids : DeletionRule :=
  { grace_period_days := 0, inactivity_threshold_days := 0, min_rating := none,
    excluded_libraries := ["Kids"], excluded_genres := [],
    excluded_collections := ["Classics"] }

/-- Old, inactive item living in the "Kids" library and the "Classics"
collection. -/
def itemInKids : MediaItem :=
  { id := "it-4", plex_id := "104", title := "Kids Movie", media_type := "movie",
    added_at := some 0, user_stats := [], rating := none, genres := none,
    file_size := none, library := "Kids", collections := ["Classics"] }

/-- C9 evaluated at the failing input: the item's library is in the rule's
`excluded_libraries` and its collection is in `excluded_collections`, yet the
scan still returns it as a candidate — `scan_for_candidates` only ever filters
on genres (the library exclusion at `deletion_service.py` lines 70-72 is
logged but never applied, and collections are never consulted), contradicting
the service's own docstring "Skip items in excluded libraries, genres, or
collections". -/
theorem scan_library_exclusion_ignored :
    itemInKids.library ∈ ruleExcludeKids.excluded_libraries ∧
    "Classics" ∈ itemInKids.collections ∧
    "Classics" ∈ ruleExcludeKids.excluded_collections ∧
    (scanItem ruleExcludeKids 86400 itemInKids).isSome = true := by
  refine ⟨?_, ?_, ?_, by decide⟩ <;> simp [itemInKids, ruleExcludeKids]

/-! ## Cascade deletion (`CascadeDeletionService`)

`cascade_deletion_service.py`.  Each step function returns a Python dict;
the keys actually present matter, because the final aggregation indexes
`results[step]["skipped"]` directly and a missing key raises `KeyError`.
A step dict is therefore a record in which `skipped` (and `error`) are
`Option`s, `none` standing for an absent key. -/

/-- A step-result dict: `success` is always present, `error` and `skipped`
only on the paths that set them. -/
structure StepDict where
  success : Bool
  error : Option String := none
  skipped : Option Bool := none
deriving DecidableEq

/-- Exceptions that escape a modelled function. -/
inductive PyErr
  | keyError
  | typeError
deriving DecidableEq

/-- A `media_items` row as consumed by the cascade service. -/
structure MediaRow where
  id : String
  plex_id : String
  title : String
  media_type : String
  server_id : String
  tvdb_id : Option String
  tmdb_id : Option String
  file_size_mb : Option Rat
deriving DecidableEq

/-- Python truthiness of an optional string (`None` and `""` are falsy). -/
def truthyStr : Option String → Bool
  | none => false
  | some s => s ≠ ""

/-- Outcome of `server.fetchItem(int(plex_id))` followed by `item.delete()`:
the item is found (and its deletion succeeds or raises), or `fetchItem`
raises `NotFound`. -/
inductive PlexFetch
  | found (deleteOk : Bool)
  | notFound
deriving DecidableEq

/-- External responses consumed by `_delete_from_plex`. -/
structure PlexEnv where
  server_found : Bool
  plex_token : Option String
  connect_ok : Bool
  fetch : PlexFetch
deriving DecidableEq

/-- `CascadeDeletionService._delete_from_plex` (lines 217-285): look up the
server row, the user's Plex token, honour `dry_run`, connect, then fetch and
delete the item.  Every exception is caught inside the function and turned
into a `success: False` dict; in particular `fetchItem` raising `NotFound`
lands in the generic `except` at line 279 and is reported as a
`"Plex API error"` failure. -/
def delete_from_plex (env : PlexEnv) (dry_run : Bool) : StepDict :=
  if !env.server_found then { success := false, error := some "Server not found" }
  else if !truthyStr env.plex_token then
    { success := false, error := some "No Plex token found" }
  else if dry_run then { success := true }
  else if !env.connect_ok then
    { success := false, error := some "Could not connect to Plex server" }
  else
    match env.fetch with
    | PlexFetch.notFound => { success := false, error := some "Plex API error: NotFound" }
    | PlexFetch.found ok =>
      if ok then { success := true }
      else { success := false, error := some "Plex API error: delete failed" }

/-- External calls the cascade makes over HTTP to the download managers and
the request broker. -/
inductive ExtCall
  | sonarrGet
  | sonarrDelete
  | radarrGet
  | radarrDelete
  | overseerrGet
  | overseerrDelete
deriving DecidableEq

/-- External responses consumed by `_delete_from_sonarr` / `_delete_from_radarr`:
whether an enabled integration row exists, the lookup HTTP status, the entry
ids the lookup returns, and the delete HTTP status. -/
structure ArrEnv where
  integration : Bool
  get_status : Nat
  found_ids : List Nat
  delete_status : Nat
deriving DecidableEq

/-- `CascadeDeletionService._delete_from_sonarr` (lines 287-362), returning
the step dict and the HTTP calls issued to Sonarr.  Skip paths are the only
ones that put a `skipped` key in the dict; dry-run, error and real-deletion
returns leave it out. -/
def delete_from_sonarr (env : ArrEnv) (item : MediaRow) (dry_run : Bool) :
    StepDict × List ExtCall :=
  if !env.integration then ({ success := true, skipped := some true }, [])
  else if !truthyStr item.tvdb_id then ({ success := true, skipped := some true }, [])
  else if dry_run then ({ success := true }, [])
  else if env.get_status ≠ 200 then
    ({ success := false, error := some "Sonarr API error" }, [ExtCall.sonarrGet])
  else
    match env.found_ids with
    | [] => ({ success := true, skipped := some true }, [ExtCall.sonarrGet])
    | _ :: _ =>
      if env.delete_status = 200 ∨ env.delete_status = 204 then
        ({ success := true }, [ExtCall.sonarrGet, ExtCall.sonarrDelete])
      else
        ({ success := false, error := some "Sonarr delete failed" },
          [ExtCall.sonarrGet, ExtCall.sonarrDelete])

/-- `CascadeDeletionService._delete_from_radarr` (lines 364-439): symmetric
to the Sonarr step, keyed on `tmdb_id`. -/
def delete_from_radarr (env : ArrEnv) (item : MediaRow) (dry_run : Bool) :
    StepDict × List ExtCall :=
  if !env.integration then ({ success := true, skipped := some true }, [])
  else if !truthyStr item.tmdb_id then ({ success := true, skipped := some true }, [])
  else if dry_run then ({ success := true }, [])
  else if env.get_status ≠ 200 then
    ({ success := false, error := some "Radarr API error" }, [ExtCall.radarrGet])
  else
    match env.found_ids with
    | [] => ({ success := true, skipped := some true }, [ExtCall.radarrGet])
    | _ :: _ =>
      if env.delete_status = 200 ∨ env.delete_status = 204 then
        ({ success := true }, [ExtCall.radarrGet, ExtCall.radarrDelete])
      else
        ({ success := false, error := some "Radarr delete failed" },
          [ExtCall.radarrGet, ExtCall.radarrDelete])

/-- External responses consumed by `_delete_from_overseerr`: integration row,
media-lookup HTTP status, and the request list of the payload — `none` models
a payload without a `requests` key; each request carries the HTTP status its
deletion call returns. -/
structure OverseerrEnv where
  integration : Bool
  get_status : Nat
  requests : Option (List (Nat × Nat))
deriving DecidableEq

/-- `CascadeDeletionService._delete_from_overseerr` (lines 441-519): find the
media by `tmdb_id` and delete every request attached to it.  A non-200 lookup
and a missing/empty request list are success-with-skip; only a positive
deleted count yields a dict without the `skipped` key. -/
def delete_from_overseerr (env : OverseerrEnv) (item : MediaRow) (dry_run : Bool) :
    StepDict × List ExtCall :=
  if !env.integration then ({ success := true, skipped := some true }, [])
  else if !truthyStr item.tmdb_id then ({ success := true, skipped := some true }, [])
  else if dry_run then ({ success := true }, [])
  else if env.get_status ≠ 200 then
    ({ success := true, skipped := some true }, [ExtCall.overseerrGet])
  else
    match env.requests with
    | none => ({ success := true, skipped := some true }, [ExtCall.overseerrGet])
    | some reqs =>
      let calls := ExtCall.overseerrGet :: reqs.map (fun _ => ExtCall.overseerrDelete)
      let deleted_count := (reqs.filter (fun rq => rq.2 = 200 ∨ rq.2 = 204)).length
      if deleted_count > 0 then ({ success := true }, calls)
      else ({ success := true, skipped := some true }, calls)

/-- One environment per downstream system for a whole cascade invocation. -/
structure CascadeEnv where
  plex : PlexEnv
  sonarr : ArrEnv
  radarr : ArrEnv
  overseerr : OverseerrEnv
deriving DecidableEq

/-- The results dict returned by `delete_media_item`. -/
structure DeletionResults where
  plex : StepDict
  sonarr : StepDict
  radarr : StepDict
  overseerr : StepDict
  overall_status : String
deriving DecidableEq

/-- `media_item.get('type') in ['show', 'season', 'episode']`. -/
def isTvType (t : String) : Bool :=
  t = "show" || t = "season" || t = "episode"

/-- Reading `d["skipped"]` on a Python dict: raises `KeyError` when the key
is absent. -/
def readSkipped (d : StepDict) : Except PyErr Bool :=
  match d.skipped with
  | none => Except.error PyErr.keyError
  | some b => Except.ok b

/-- The aggregation at `cascade_deletion_service.py` lines 176-189, with
Python's evaluation order: `plex_success` first, then
`(sonarr["skipped"] or sonarr["success"]) and (radarr["skipped"] or radarr["success"])`
(short-circuiting, so the Radarr dict is only indexed when the Sonarr factor
is truthy), then `overseerr["skipped"] or overseerr["success"]`. -/
def aggregateStatus (plexd sonarrd radarrd overseerrd : StepDict) :
    Except PyErr String :=
  match readSkipped sonarrd with
  | Except.error e => Except.error e
  | Except.ok ss =>
    let sOk := ss || sonarrd.success
    let arrRes : Except PyErr Bool :=
      if sOk then
        match readSkipped radarrd with
        | Except.error e => Except.error e
        | Except.ok rs => Except.ok (rs || radarrd.success)
      else Except.ok false
    match arrRes with
    | Except.error e => Except.error e
    | Except.ok arr_success =>
      match readSkipped overseerrd with
      | Except.error e => Except.error e
      | Except.ok os =>
        let overseerr_success := os || overseerrd.success
        if plexd.success && arr_success && overseerr_success then Except.ok "completed"
        else if plexd.success then Except.ok "partial"
        else Except.ok "failed"

/-- Step 2 of `delete_media_item` (lines 114-133): the Sonarr step runs only
for TV types; otherwise the initial dict (with `skipped: True`) is kept and no
call is made. -/
def sonarrStepOf (env : CascadeEnv) (item : MediaRow) (dry_run : Bool) :
    StepDict × List ExtCall :=
  if isTvType item.media_type then delete_from_sonarr env.sonarr item dry_run
  else (({ success := false, skipped := some true } : StepDict), [])

/-- Step 3 of `delete_media_item` (lines 135-154): the Radarr step runs only
for movies. -/
def radarrStepOf (env : CascadeEnv) (item : MediaRow) (dry_run : Bool) :
    StepDict × List ExtCall :=
  if item.media_type = "movie" then delete_from_radarr env.radarr item dry_run
  else (({ success := false, skipped := some true } : StepDict), [])

/-- The HTTP calls one `delete_media_item` invocation issues to Sonarr,
Radarr and Overseerr: all three steps run regardless of the Plex outcome. -/
def cascadeCalls (env : CascadeEnv) (item : MediaRow) (dry_run : Bool) : List ExtCall :=
  (sonarrStepOf env item dry_run).2 ++ (radarrStepOf env item dry_run).2 ++
    (delete_from_overseerr env.overseerr item dry_run).2

/-- `CascadeDeletionService.delete_media_item` (lines 41-215).  The four
steps run in order with no early exit: the Sonarr step runs for TV types, the
Radarr step for movies, the Overseerr step always — regardless of the Plex
outcome.  The returned pair is the result of the invocation (the results
dict, or the exception escaping the aggregation) together with the HTTP calls
issued to Sonarr, Radarr and Overseerr.  Audit writes to `deletion_events`
and `admin_activity_log` are side effects not modelled here. -/
def delete_media_item (env : CascadeEnv) (item : MediaRow) (dry_run : Bool) :
    Except PyErr DeletionResults × List ExtCall :=
  match aggregateStatus (delete_from_plex env.plex dry_run)
      (sonarrStepOf env item dry_run).1 (radarrStepOf env item dry_run).1
      (delete_from_overseerr env.overseerr item dry_run).1 with
  | Except.error e => (Except.error e, cascadeCalls env item dry_run)
  | Except.ok st =>
    (Except.ok { plex := delete_from_plex env.plex dry_run,
                 sonarr := (sonarrStepOf env item dry_run).1,
                 radarr := (radarrStepOf env item dry_run).1,
                 overseerr := (delete_from_overseerr env.overseerr item dry_run).1,
                 overall_status := st }, cascadeCalls env item dry_run)

/-- When the aggregation completes with the Plex step unsuccessful, the
resulting status is `"failed"`. -/
theorem aggregateStatus_of_plex_failed (p s r o : StepDict) (h : p.success = false)
    (st : String) (hok : aggregateStatus p s r o = Except.ok st) : st = "failed" := by
  unfold aggregateStatus at hok
  cases hs : readSkipped s with
  | error e => rw [hs] at hok; exact absurd hok (by simp)
  | ok ss =>
    rw [hs] at hok
    simp only [h] at hok
    cases hb : (if (ss || s.success) = true then
        match readSkipped r with
        | Except.error e => Except.error e
        | Except.ok rs => Except.ok (rs || r.success)
      else Except.ok false) with
    | error e => rw [hb] at hok; exact absurd hok (by simp)
    | ok arr =>
      rw [hb] at hok
      cases ho : readSkipped o with
      | error e => rw [ho] at hok; exact absurd hok (by simp)
      | ok os =>
        rw [ho] at hok
        simp only [h, Bool.false_and, Bool.and_eq_true, if_neg, Bool.false_eq_true,
          not_false_eq_true, if_false] at hok
        exact (Except.ok.injEq _ _ ▸ hok).symm ▸ rfl

/-- C1 (amended): when the media-server step fails, a completing invocation
still returns `overall_status = "failed"`, but the later steps are attempted
anyway — the calls issued to Sonarr, Radarr and Overseerr are exactly the
ones those steps produce on their own, unaffected by the Plex outcome. -/
theorem delete_media_item_plex_failed (env : CascadeEnv) (item : MediaRow) (dry_run : Bool)
    (h : (delete_from_plex env.plex dry_run).success = false) :
    (∀ r, (delete_media_item env item dry_run).fst = Except.ok r →
        r.overall_status = "failed") ∧
    (delete_media_item env item dry_run).snd =
      (sonarrStepOf env item dry_run).2 ++ (radarrStepOf env item dry_run).2 ++
      (delete_from_overseerr env.overseerr item dry_run).2 := by
  constructor
  · intro r hr
    unfold delete_media_item at hr
    split at hr
    · exact Except.noConfusion hr
    · rename_i st hagg
      cases hr
      exact aggregateStatus_of_plex_failed _ _ _ _ h st hagg
  · unfold delete_media_item
    split <;> rfl

/-- Sonarr/Radarr environment with no enabled integration row. -/
def arrOff : ArrEnv :=
  { integration := false, get_status := 0, found_ids := [], delete_status := 0 }

/-- Overseerr environment with no enabled integration row. -/
def overseerrOff : OverseerrEnv :=
  { integration := false, get_status := 0, requests := none }

/-- Environment in which the Plex server row is missing (Plex step fails),
while Radarr is integrated and reachable but holds no matching movie. -/
def envCascadeFail : CascadeEnv :=
  { plex := { server_found := false, plex_token := none, connect_ok := false,
              fetch := PlexFetch.notFound },
    sonarr := arrOff,
    radarr := { integration := true, get_status := 200, found_ids := [], delete_status := 0 },
    overseerr := overseerrOff }

/-- A movie row with a TMDB cross-reference id. -/
def movieRow : MediaRow :=
  { id := "m-1", plex_id := "201", title := "Old Movie", media_type := "movie",
    server_id := "srv-1", tvdb_id := none, tmdb_id := some "4242", file_size_mb := none }

/-- Counterexample to C1 as stated: the Plex step fails and the returned
status is `"failed"`, yet the call list is not empty — an HTTP lookup was
issued to Radarr for the item. -/
theorem cascade_plex_failure_counterexample :
    Except.map (fun r => r.overall_status)
        (delete_media_item envCascadeFail movieRow false).fst = Except.ok "failed" ∧
    (delete_media_item envCascadeFail movieRow false).snd = [ExtCall.radarrGet] :=
  ⟨rfl, rfl⟩

/-- Witness for the amended C1 at the concrete failing environment. -/
theorem delete_media_item_plex_failed_witness :
    (delete_media_item envCascadeFail movieRow false).snd =
      (sonarrStepOf envCascadeFail movieRow false).2 ++
      (radarrStepOf envCascadeFail movieRow false).2 ++
      (delete_from_overseerr envCascadeFail.overseerr movieRow false).2 :=
  (delete_media_item_plex_failed envCascadeFail movieRow false (by decide)).2

/-- C2 (amended): on an item whose media-server entry is already gone
(`fetchItem` reports not-found) a non-dry-run invocation reports *failure* on
the media-server step, with a "Plex API error" message — not success. -/
theorem delete_from_plex_not_found_fails (env : PlexEnv)
    (h1 : env.server_found = true) (h2 : truthyStr env.plex_token = true)
    (h3 : env.connect_ok = true) (h4 : env.fetch = PlexFetch.notFound) :
    delete_from_plex env false =
      { success := false, error := some "Plex API error: NotFound" } := by
  unfold delete_from_plex
  simp [h1, h2, h3, h4]

/-- Plex environment in which everything is reachable but the item itself is
absent from the library. -/
def plexGoneEnv : PlexEnv :=
  { server_found := true, plex_token := some "tok", connect_ok := true,
    fetch := PlexFetch.notFound }

/-- Witness for the amended C2 at the concrete environment. -/
theorem delete_from_plex_not_found_fails_witness :
    delete_from_plex plexGoneEnv false =
      { success := false, error := some "Plex API error: NotFound" } :=
  delete_from_plex_not_found_fails plexGoneEnv rfl (by decide) rfl rfl

/-- Cascade environment for an item already absent from Plex, with no other
integrations enabled. -/
def envItemGone : CascadeEnv :=
  { plex := plexGoneEnv, sonarr := arrOff, radarr := arrOff,
    overseerr := overseerrOff }

/-- Counterexample to C2 as stated: with the media-server entry already gone,
`delete_media_item` reports `success = false` on the media-server step (and an
overall `"failed"`), not success — so a retry fails on that step every time. -/
theorem cascade_not_found_counterexample :
    Except.map (fun r => (r.plex.success, r.overall_status))
        (delete_media_item envItemGone movieRow false).fst =
      Except.ok (false, "failed") :=
  rfl

/-- Environment in which Plex deletion succeeds but the Sonarr lookup fails
with an HTTP 500. -/
def envSonarrError : CascadeEnv :=
  { plex := { server_found := true, plex_token := some "tok", connect_ok := true,
              fetch := PlexFetch.found true },
    sonarr := { integration := true, get_status := 500, found_ids := [], delete_status := 0 },
    radarr := arrOff,
    overseerr := overseerrOff }

/-- A TV-show row with a TVDB cross-reference id. -/
def showRow : MediaRow :=
  { id := "s-1", plex_id := "301", title := "Old Show", media_type := "show",
    server_id := "srv-1", tvdb_id := some "777", tmdb_id := none, file_size_mb := none }

/-- C4 evaluated at the failing input: Plex succeeds and the Sonarr step
returns an error dict — which carries no `skipped` key — so the aggregation
raises `KeyError` instead of returning `overall_status = "partial"`. -/
theorem cascade_aggregation_keyError :
    (delete_from_plex envSonarrError.plex false).success = true ∧
    (delete_from_sonarr envSonarrError.sonarr showRow false).1 =
      { success := false, error := some "Sonarr API error", skipped := none } ∧
    (delete_media_item envSonarrError showRow false).fst = Except.error PyErr.keyError :=
  ⟨rfl, rfl, rfl⟩

/-! ## The admin batch endpoint (`execute_deletion`, `admin_deletion.py`) -/

/-- Parameters declared by `CascadeDeletionService.delete_media_item`
(`cascade_deletion_service.py` lines 41-48); the method has no `**kwargs`. -/
def deleteMediaItemParams : List String :=
  ["media_item", "user_id", "deletion_rule_id", "deletion_reason", "dry_run"]

/-- Keyword arguments the admin batch endpoint passes at
`admin_deletion.py` lines 462-469, including `plex_token`. -/
def executeDeletionCallKwargs : List String :=
  ["media_item", "user_id", "deletion_rule_id", "deletion_reason", "dry_run", "plex_token"]

/-- Python keyword binding: a call raises `TypeError` when some keyword does
not name a declared parameter of the callee. -/
def bindKwargs (params kwargs : List String) : Except PyErr Unit :=
  if kwargs.all (fun k => params.contains k) then Except.ok ()
  else Except.error PyErr.typeError

/-- One iteration of the candidate loop at `admin_deletion.py` lines 436-493,
updating the `(deleted, failed)` counters: a missing media row marks the
candidate failed; otherwise the cascade call is attempted — binding its
keyword arguments first — and a raised exception is caught by the per-item
handler and also marks the candidate failed.  `runItem` gives the overall
status the cascade would return if the call ever bound successfully. -/
def executeDeletionStep (lookup : String → Option MediaRow)
    (runItem : MediaRow → String) (acc : Nat × Nat) (cid : String) : Nat × Nat :=
  match lookup cid with
  | none => (acc.1, acc.2 + 1)
  | some row =>
    match bindKwargs deleteMediaItemParams executeDeletionCallKwargs with
    | Except.error _ => (acc.1, acc.2 + 1)
    | Except.ok _ =>
      let st := runItem row
      if st = "completed" || st = "partial" then (acc.1 + 1, acc.2)
      else (acc.1, acc.2 + 1)

/-- The `(deleted, failed)` counters after the whole candidate loop of
`execute_deletion`. -/
def execute_deletion_counts (lookup : String → Option MediaRow)
    (runItem : MediaRow → String) (candidates : List String) : Nat × Nat :=
  candidates.foldl (executeDeletionStep lookup runItem) (0, 0)

/-- Every iteration of the candidate loop adds one failure and no deletion. -/
theorem executeDeletionStep_foldl (lookup : String → Option MediaRow)
    (runItem : MediaRow → String) (cs : List String) (acc : Nat × Nat) :
    cs.foldl (executeDeletionStep lookup runItem) acc = (acc.1, acc.2 + cs.length) := by
  induction cs generalizing acc with
  | nil => simp
  | cons c rest ih =>
    have hb : bindKwargs deleteMediaItemParams executeDeletionCallKwargs =
        Except.error PyErr.typeError := rfl
    rw [List.foldl_cons]
    cases hl : lookup c with
    | none =>
      rw [ih]
      simp [executeDeletionStep, hl]
      omega
    | some row =>
      rw [ih]
      simp [executeDeletionStep, hl, hb]
      omega

/-- C5: for every non-empty candidate list, the batch endpoint ends with
`deleted = 0` and `failed = total_candidates`: the per-item cascade call
passes the undeclared `plex_token` keyword, so it raises `TypeError` on every
candidate, and the per-item handler records a failure and continues. -/
theorem execute_deletion_all_fail (lookup : String → Option MediaRow)
    (runItem : MediaRow → String) (candidates : List String)
    (_h : candidates ≠ []) :
    bindKwargs deleteMediaItemParams executeDeletionCallKwargs =
      Except.error PyErr.typeError ∧
    (execute_deletion_counts lookup runItem candidates).1 = 0 ∧
    (execute_deletion_counts lookup runItem candidates).2 = candidates.length := by
  refine ⟨rfl, ?_, ?_⟩ <;>
    simp [execute_deletion_counts, executeDeletionStep_foldl]

/-- Candidate lookup used in the batch witness: every id resolves. -/
def lookupAll : String → Option MediaRow := fun _ => some movieRow

/-- Hypothetical per-item status used in the batch witness. -/
def runCompleted : MediaRow → String := fun _ => "completed"

/-- Witness for C5 on a concrete two-candidate batch. -/
theorem execute_deletion_all_fail_witness :
    bindKwargs deleteMediaItemParams executeDeletionCallKwargs =
      Except.error PyErr.typeError ∧
    (execute_deletion_counts lookupAll runCompleted ["a", "b"]).1 = 0 ∧
    (execute_deletion_counts lookupAll runCompleted ["a", "b"]).2 =
      (["a", "b"] : List String).length :=
  execute_deletion_all_fail lookupAll runCompleted ["a", "b"] (by decide)

/-! ## Guid extraction during sync (`plex_sync.py` lines 189-200 and 279-286)

For each leaf item the sync loops over the guid strings and assigns
`tmdb_id = guid_id.split('tmdb://')[1]` whenever `'tmdb://' in guid_id`,
with `elif` branches for `tvdb://` and `imdb://`.  Each match overwrites the
previous value of its namespace. -/

/-- Whether the character sequence `pat` starts the sequence `s`. -/
def leadsWith : List Char → List Char → Bool
  | [], _ => true
  | _ :: _, [] => false
  | a :: as, b :: bs => a == b && leadsWith as bs

/-- Whether `pat` occurs anywhere in `s`. -/
def containsSeq (pat s : List Char) : Bool :=
  match s with
  | [] => leadsWith pat []
  | _ :: rest => leadsWith pat s || containsSeq pat rest

/-- The suffix of `s` after the first occurrence of `pat`, when one exists. -/
def afterMatch (pat s : List Char) : Option (List Char) :=
  match s with
  | [] => none
  | _ :: rest =>
    if leadsWith pat s then some (s.drop pat.length) else afterMatch pat rest

/-- The longest piece of `s` before the next occurrence of `pat`. -/
def upToMatch (pat s : List Char) : List Char :=
  match s with
  | [] => []
  | c :: rest => if leadsWith pat s then [] else c :: upToMatch pat rest

/-- Python `pat in s` (membership of a non-empty substring). -/
def hasSub (s pat : String) : Bool := containsSeq pat.data s.data

/-- Python `s.split(pat)[1]`: the text between the first and second
occurrence of the separator (to the end of `s` when it occurs once). -/
def afterFirst (s pat : String) : String :=
  match afterMatch pat.data s.data with
  | none => ""
  | some t => String.mk (upToMatch pat.data t)

/-- The three cross-reference ids carried by an upserted media record. -/
structure ExternalIds where
  tmdb_id : Option String
  tvdb_id : Option String
  imdb_id : Option String
deriving DecidableEq

/-- Body of the guid loop: `if 'tmdb://' in g ... elif 'tvdb://' in g ...
elif 'imdb://' in g ...`, assigning into the matched namespace. -/
def extractIdsStep (acc : ExternalIds) (g : String) : ExternalIds :=
  if hasSub g "tmdb://" then { acc with tmdb_id := some (afterFirst g "tmdb://") }
  else if hasSub g "tvdb://" then { acc with tvdb_id := some (afterFirst g "tvdb://") }
  else if hasSub g "imdb://" then { acc with imdb_id := some (afterFirst g "imdb://") }
  else acc

/-- The whole guid loop, starting from `tmdb_id = tvdb_id = imdb_id = None`. -/
def extractExternalIds (guids : List String) : ExternalIds :=
  guids.foldl extractIdsStep { tmdb_id := none, tvdb_id := none, imdb_id := none }

/-- The media record upserted for a movie (`plex_sync.py` lines 300-316,
identification fields). -/
structure MediaUpsert where
  server_id : Nat
  plex_id : String
  media_type : String
  tmdb_id : Option String
  tvdb_id : Option String
  imdb_id : Option String
deriving DecidableEq

/-- The `media_data` dict built for a movie at `plex_sync.py` lines 300-310
(episodes at lines 214-225 extract from the show's guid list the same way). -/
def movieMediaData (serverId : Nat) (ratingKey : Nat) (guids : List String) : MediaUpsert :=
  let ids := extractExternalIds guids
  { server_id := serverId, plex_id := toString ratingKey, media_type := "movie",
    tmdb_id := ids.tmdb_id, tvdb_id := ids.tvdb_id, imdb_id := ids.imdb_id }

/-- Which guids reach the `tmdb` branch of the loop. -/
def matchesTmdb (g : String) : Bool := hasSub g "tmdb://"

/-- Which guids reach the `tvdb` branch (the `elif` skips tmdb matches). -/
def matchesTvdb (g : String) : Bool := !hasSub g "tmdb://" && hasSub g "tvdb://"

/-- Which guids reach the `imdb` branch. -/
def matchesImdb (g : String) : Bool :=
  !hasSub g "tmdb://" && !hasSub g "tvdb://" && hasSub g "imdb://"

/-- First-of-two options. -/
def orO (a b : Option String) : Option String :=
  match a with
  | some x => some x
  | none => b

/-- `orO` with an empty fallback is the identity. -/
theorem orO_none (a : Option String) : orO a none = a := by
  cases a <;> rfl

/-- `find?` distributes over append through `orO`. -/
theorem find?_append_orO (p : String → Bool) (l₁ l₂ : List String) :
    (l₁ ++ l₂).find? p = orO (l₁.find? p) (l₂.find? p) := by
  induction l₁ with
  | nil => simp [orO]
  | cons a l ih =>
    by_cases h : p a <;> simp [List.find?, h, ih, orO]

/-- Folding the guid loop: each namespace selector ends at the value of the
last matching guid, and keeps the accumulator's value when none matches. -/
theorem extractIds_foldl_last (p : String → Bool) (f : String → String)
    (sel : ExternalIds → Option String)
    (hstep : ∀ acc g, sel (extractIdsStep acc g) =
      if p g then some (f g) else sel acc)
    (guids : List String) (acc : ExternalIds) :
    sel (guids.foldl extractIdsStep acc) =
      orO ((guids.reverse.find? p).map f) (sel acc) := by
  induction guids generalizing acc with
  | nil => simp [orO]
  | cons g gs ih =>
    rw [List.foldl_cons, ih, List.reverse_cons, find?_append_orO]
    cases hfind : gs.reverse.find? p with
    | some h => simp [orO, hfind]
    | none =>
      by_cases hg : p g <;> simp [orO, hfind, List.find?, hg, hstep]

/-- Effect of one loop body on the `tmdb` namespace. -/
theorem extractIdsStep_tmdb (acc : ExternalIds) (g : String) :
    (extractIdsStep acc g).tmdb_id =
      if matchesTmdb g then some (afterFirst g "tmdb://") else acc.tmdb_id := by
  simp only [extractIdsStep, matchesTmdb]
  by_cases h1 : hasSub g "tmdb://" <;> by_cases h2 : hasSub g "tvdb://" <;>
    by_cases h3 : hasSub g "imdb://" <;> simp [h1, h2, h3]

/-- Effect of one loop body on the `tvdb` namespace. -/
theorem extractIdsStep_tvdb (acc : ExternalIds) (g : String) :
    (extractIdsStep acc g).tvdb_id =
      if matchesTvdb g then some (afterFirst g "tvdb://") else acc.tvdb_id := by
  simp only [extractIdsStep, matchesTvdb]
  by_cases h1 : hasSub g "tmdb://" <;> by_cases h2 : hasSub g "tvdb://" <;>
    by_cases h3 : hasSub g "imdb://" <;> simp [h1, h2, h3]

/-- Effect of one loop body on the `imdb` namespace. -/
theorem extractIdsStep_imdb (acc : ExternalIds) (g : String) :
    (extractIdsStep acc g).imdb_id =
      if matchesImdb g then some (afterFirst g "imdb://") else acc.imdb_id := by
  simp only [extractIdsStep, matchesImdb]
  by_cases h1 : hasSub g "tmdb://" <;> by_cases h2 : hasSub g "tvdb://" <;>
    by_cases h3 : hasSub g "imdb://" <;> simp [h1, h2, h3]

/-- C8 (amended): for every guid list, the cross-reference ids recorded in
the upserted record are the *last* match per id-namespace in list order
(respecting the `elif` priority tmdb before tvdb before imdb), not the first. -/
theorem movieMediaData_last_match_wins (serverId ratingKey : Nat) (guids : List String) :
    (movieMediaData serverId ratingKey guids).tmdb_id =
      (guids.reverse.find? matchesTmdb).map (fun g => afterFirst g "tmdb://") ∧
    (movieMediaData serverId ratingKey guids).tvdb_id =
      (guids.reverse.find? matchesTvdb).map (fun g => afterFirst g "tvdb://") ∧
    (movieMediaData serverId ratingKey guids).imdb_id =
      (guids.reverse.find? matchesImdb).map (fun g => afterFirst g "imdb://") := by
  refine ⟨?_, ?_, ?_⟩
  · have h := extractIds_foldl_last matchesTmdb (fun g => afterFirst g "tmdb://")
      (fun i => i.tmdb_id) extractIdsStep_tmdb guids
      { tmdb_id := none, tvdb_id := none, imdb_id := none }
    simpa [movieMediaData, extractExternalIds, orO_none] using h
  · have h := extractIds_foldl_last matchesTvdb (fun g => afterFirst g "tvdb://")
      (fun i => i.tvdb_id) extractIdsStep_tvdb guids
      { tmdb_id := none, tvdb_id := none, imdb_id := none }
    simpa [movieMediaData, extractExternalIds, orO_none] using h
  · have h := extractIds_foldl_last matchesImdb (fun g => afterFirst g "imdb://")
      (fun i => i.imdb_id) extractIdsStep_imdb guids
      { tmdb_id := none, tvdb_id := none, imdb_id := none }
    simpa [movieMediaData, extractExternalIds, orO_none] using h

/-- Counterexample to C8 as stated: a guid list with two `tmdb` identifiers
stores the second one; the first match in list order is `tmdb://111` but the
recorded value is `222`. -/
theorem movieMediaData_first_match_counterexample :
    (["tmdb://111", "tmdb://222"].find? matchesTmdb) = some "tmdb://111" ∧
    afterFirst "tmdb://111" "tmdb://" = "111" ∧
    (movieMediaData 1 500 ["tmdb://111", "tmdb://222"]).tmdb_id = some "222" := by
  refine ⟨?_, ?_, ?_⟩ <;> rfl

/-! ## The streaming sync run (`plex_sync.py`, `sync_library_generator`)

The generator is modelled as a pure function of an environment describing
the external responses: the resource list the Plex account returns, the
connection outcome per resource, the section/item trees, the value of the
cooperative cancellation flag at each between-item check, and the
`media_items` rows present at cleanup time.  The SSE events are tracked by
status only. -/

/-- Status field of an emitted SSE event. -/
inductive EvStatus
  | connecting
  | counting
  | syncing
  | warning
  | cancelled
  | complete
  | errored
deriving DecidableEq

/-- One episode of a show, with the outcome of its `media_items` upsert
(a failed upsert is logged and the item is *not* added to the seen set). -/
structure EpisodeItem where
  ratingKey : Nat
  upsertOk : Bool
deriving DecidableEq

/-- One top-level section item: a movie, or a show whose `episodes()` call
either raises (`error`) or returns its episode list. -/
structure ShowOrMovie where
  ratingKey : Nat
  episodesResult : Except Unit (List EpisodeItem)
  upsertOk : Bool

/-- One library section; `itemsResult` is `section.all()`, which may raise
(caught per section with a warning event). -/
structure LibSection where
  secType : String
  itemsResult : Except Unit (List ShowOrMovie)

/-- One entry of `account.resources()`: its product string, the outcome of
`connect_to_server` (raise / `None` / a connection whose `servers`-table
upsert yields the given database server id), and its sections. -/
structure PlexResource where
  product : String
  connectResult : Except Unit (Option Nat)
  serverUpsertOk : Bool
  sections : List LibSection

/-- A `media_items` row as read by the orphan cleanup. -/
structure DbItem where
  id : String
  server_id : Nat
  plex_id : String
  title : String
deriving DecidableEq

/-- Environment of one sync run. `cancelFlagAt k` is the value of
`_active_syncs[user_id]` at the `k`-th cooperative check; `deleteOk` is the
outcome of each orphan delete call. -/
structure SyncEnv where
  resourcesResult : Except Unit (List PlexResource)
  cancelFlagAt : Nat → Bool
  dbItems : List DbItem
  deleteOk : DbItem → Bool

/-- Mutable state threaded through the run. -/
structure SyncState where
  checks : Nat
  synced : Nat
  seen : List (Nat × String)
  events : List EvStatus
  cancelled : Bool
deriving DecidableEq

/-- One cooperative cancellation check (`_active_syncs.get(user_id, False)`),
returning the bumped state and the observed flag. -/
def checkCancel (env : SyncEnv) (st : SyncState) : SyncState × Bool :=
  ({ st with checks := st.checks + 1 }, env.cancelFlagAt st.checks)

/-- Observing the flag: emit the `cancelled` event and stop. -/
def cancelHere (st : SyncState) : SyncState :=
  { st with cancelled := true, events := st.events ++ [EvStatus.cancelled] }

/-- The episode loop at `plex_sync.py` lines 173-262: per episode, check the
flag, bump the counter, upsert (recording the seen key on success) and emit a
progress event.  A cancelled state propagates out of every remaining loop,
modelling the generator's `return`. -/
def processEpisodes (env : SyncEnv) (serverId : Nat) :
    List EpisodeItem → SyncState → SyncState
  | [], st => st
  | ep :: rest, st =>
    if st.cancelled then st
    else
      let c := checkCancel env st
      if c.2 then cancelHere c.1
      else
        processEpisodes env serverId rest
          { c.1 with synced := c.1.synced + 1,
                     seen := c.1.seen ++
                       (if ep.upsertOk then [(serverId, toString ep.ratingKey)] else []),
                     events := c.1.events ++ [EvStatus.syncing] }

/-- The item loop at `plex_sync.py` lines 159-347: per item, check the flag;
in a shows section iterate the episodes (an `episodes()` exception is caught
and the loop continues with the next show); in a movies section upsert the
movie and emit a progress event. -/
def processItems (env : SyncEnv) (serverId : Nat) (isShow : Bool) :
    List ShowOrMovie → SyncState → SyncState
  | [], st => st
  | it :: rest, st =>
    if st.cancelled then st
    else
      let c := checkCancel env st
      if c.2 then cancelHere c.1
      else if isShow then
        match it.episodesResult with
        | Except.error _ => processItems env serverId isShow rest c.1
        | Except.ok eps =>
          processItems env serverId isShow rest (processEpisodes env serverId eps c.1)
      else
        processItems env serverId isShow rest
          { c.1 with synced := c.1.synced + 1,
                     seen := c.1.seen ++
                       (if it.upsertOk then [(serverId, toString it.ratingKey)] else []),
                     events := c.1.events ++ [EvStatus.syncing] }

/-- The section loop at `plex_sync.py` lines 153-351: a section whose
`section.all()` raises yields a warning event and the loop continues. -/
def processSections (env : SyncEnv) (serverId : Nat) :
    List LibSection → SyncState → SyncState
  | [], st => st
  | s :: rest, st =>
    if st.cancelled then st
    else
      match s.itemsResult with
      | Except.error _ =>
        processSections env serverId rest { st with events := st.events ++ [EvStatus.warning] }
      | Except.ok items =>
        processSections env serverId rest
          (processItems env serverId (s.secType = "show") items st)

/-- One resource of the resource loop at `plex_sync.py` lines 97-356:
non-server products are skipped silently; a connection exception yields a
warning and the loop continues; a `None` connection or a failed server-row
upsert continues silently; otherwise the counting and syncing events are
emitted and the movie/show sections are processed. -/
def processResource (env : SyncEnv) (r : PlexResource) (st : SyncState) : SyncState :=
  if r.product ≠ "Plex Media Server" then st
  else
    match r.connectResult with
    | Except.error _ =>
      { st with events := st.events ++ [EvStatus.connecting, EvStatus.warning] }
    | Except.ok none => { st with events := st.events ++ [EvStatus.connecting] }
    | Except.ok (some serverId) =>
      if !r.serverUpsertOk then { st with events := st.events ++ [EvStatus.connecting] }
      else
        processSections env serverId
          (r.sections.filter (fun s => s.secType = "movie" || s.secType = "show"))
          { st with events := st.events ++
              [EvStatus.connecting, EvStatus.counting, EvStatus.syncing] }

/-- The whole resource loop. -/
def processResources (env : SyncEnv) : List PlexResource → SyncState → SyncState
  | [], st => st
  | r :: rest, st =>
    if st.cancelled then st
    else processResources env rest (processResource env r st)

/-- State at the start of a run, after the initial connecting event. -/
def initSyncState : SyncState :=
  { checks := 0, synced := 0, seen := [], events := [EvStatus.connecting],
    cancelled := false }

/-- Observable outcome of one run. -/
structure SyncResult where
  events : List EvStatus
  removedOrphans : List DbItem
  seen : List (Nat × String)
  cancelled : Bool

/-- The orphan cleanup at `plex_sync.py` lines 358-382: every `media_items`
row whose `(server_id, plex_id)` was not recorded in this run's seen set is
deleted (an individual delete failure is logged and skipped). -/
def orphanCleanup (env : SyncEnv) (seen : List (Nat × String)) : List DbItem :=
  env.dbItems.filter
    (fun it => !seen.contains (it.server_id, it.plex_id) && env.deleteOk it)

/-- Terminal outcome when `account.resources()` raises or returns nothing:
the error event, no cleanup. -/
def syncErrorResult : SyncResult :=
  { events := [EvStatus.connecting, EvStatus.errored], removedOrphans := [],
    seen := [], cancelled := false }

/-- End of a run after the resource loop: a cancelled run returns right
after its cancelled event without any cleanup; otherwise the orphan cleanup
runs and the completion event is emitted. -/
def syncFinish (env : SyncEnv) (st : SyncState) : SyncResult :=
  if st.cancelled then
    { events := st.events, removedOrphans := [], seen := st.seen, cancelled := true }
  else
    { events := st.events ++ [EvStatus.syncing, EvStatus.complete],
      removedOrphans := orphanCleanup env st.seen, seen := st.seen,
      cancelled := false }

/-- `sync_library_generator` (`plex_sync.py` lines 61-429): emit the initial
connecting event; a failing or empty `account.resources()` terminates with an
error event; otherwise run the resource loop and finish with `syncFinish`. -/
def sync_library_generator (env : SyncEnv) : SyncResult :=
  match env.resourcesResult with
  | Except.error _ => syncErrorResult
  | Except.ok rs =>
    if rs.isEmpty then syncErrorResult
    else syncFinish env (processResources env rs initSyncState)

/-- A cancelled state passes through the item loop unchanged (the generator
has already returned). -/
theorem processItems_of_cancelled (env : SyncEnv) (serverId : Nat) (isShow : Bool)
    (l : List ShowOrMovie) (st : SyncState) (h : st.cancelled = true) :
    processItems env serverId isShow l st = st := by
  cases l <;> simp [processItems, h]

/-- A cancelled state passes through the section loop unchanged. -/
theorem processSections_of_cancelled (env : SyncEnv) (serverId : Nat)
    (l : List LibSection) (st : SyncState) (h : st.cancelled = true) :
    processSections env serverId l st = st := by
  cases l <;> simp [processSections, h]

/-- A cancelled state passes through the resource loop unchanged. -/
theorem processResources_of_cancelled (env : SyncEnv) (rs : List PlexResource)
    (st : SyncState) (h : st.cancelled = true) :
    processResources env rs st = st := by
  cases rs <;> simp [processResources, h]

/-- If the episode loop observes the cancellation flag, its final event is
the cancelled event. -/
theorem processEpisodes_cancelled (env : SyncEnv) (serverId : Nat)
    (eps : List EpisodeItem) :
    ∀ st : SyncState, st.cancelled = false →
      (processEpisodes env serverId eps st).cancelled = true →
      (processEpisodes env serverId eps st).events.getLast? = some EvStatus.cancelled := by
  induction eps with
  | nil =>
    intro st h0 hc
    rw [processEpisodes] at hc
    rw [h0] at hc
    exact Bool.noConfusion hc
  | cons ep rest ih =>
    intro st h0 hc
    simp only [processEpisodes, h0, Bool.false_eq_true, if_false] at hc ⊢
    by_cases hf : env.cancelFlagAt st.checks = true
    · simp only [checkCancel, hf, if_true, cancelHere] at hc ⊢
      exact List.getLast?_concat _
    · simp only [checkCancel, hf, Bool.false_eq_true, if_false] at hc ⊢
      exact ih _ h0 hc

/-- If the item loop observes the cancellation flag (directly or inside an
episode loop), its final event is the cancelled event. -/
theorem processItems_cancelled (env : SyncEnv) (serverId : Nat) (isShow : Bool)
    (items : List ShowOrMovie) :
    ∀ st : SyncState, st.cancelled = false →
      (processItems env serverId isShow items st).cancelled = true →
      (processItems env serverId isShow items st).events.getLast? =
        some EvStatus.cancelled := by
  induction items with
  | nil =>
    intro st h0 hc
    rw [processItems] at hc
    rw [h0] at hc
    exact Bool.noConfusion hc
  | cons it rest ih =>
    intro st h0 hc
    simp only [processItems, h0, Bool.false_eq_true, if_false] at hc ⊢
    by_cases hf : env.cancelFlagAt st.checks = true
    · simp only [checkCancel, hf, if_true, cancelHere] at hc ⊢
      exact List.getLast?_concat _
    · simp only [checkCancel, hf, Bool.false_eq_true, if_false] at hc ⊢
      by_cases hs : isShow = true
      · rw [if_pos hs] at hc ⊢
        cases hep : it.episodesResult with
        | error e =>
          rw [hep] at hc
          replace hc : (processItems env serverId isShow rest
              { st with checks := st.checks + 1 }).cancelled = true := hc
          show (processItems env serverId isShow rest
              { st with checks := st.checks + 1 }).events.getLast? =
            some EvStatus.cancelled
          exact ih _ h0 hc
        | ok eps =>
          rw [hep] at hc
          replace hc : (processItems env serverId isShow rest
              (processEpisodes env serverId eps
                { st with checks := st.checks + 1 })).cancelled = true := hc
          show (processItems env serverId isShow rest
              (processEpisodes env serverId eps
                { st with checks := st.checks + 1 })).events.getLast? =
            some EvStatus.cancelled
          by_cases hpe :
              (processEpisodes env serverId eps
                { st with checks := st.checks + 1 }).cancelled = true
          · rw [processItems_of_cancelled _ _ _ _ _ hpe] at hc ⊢
            exact processEpisodes_cancelled env serverId eps _ h0 hpe
          · exact ih _ (Bool.eq_false_iff.mpr hpe) hc
      · rw [if_neg hs] at hc ⊢
        exact ih _ h0 hc

/-- If the section loop observes the cancellation flag, its final event is
the cancelled event. -/
theorem processSections_cancelled (env : SyncEnv) (serverId : Nat)
    (secs : List LibSection) :
    ∀ st : SyncState, st.cancelled = false →
      (processSections env serverId secs st).cancelled = true →
      (processSections env serverId secs st).events.getLast? =
        some EvStatus.cancelled := by
  induction secs with
  | nil =>
    intro st h0 hc
    rw [processSections] at hc
    rw [h0] at hc
    exact Bool.noConfusion hc
  | cons s rest ih =>
    intro st h0 hc
    simp only [processSections, h0, Bool.false_eq_true, if_false] at hc ⊢
    cases hit : s.itemsResult with
    | error e =>
      rw [hit] at hc
      replace hc : (processSections env serverId rest
          { st with events := st.events ++ [EvStatus.warning],
                    cancelled := false }).cancelled = true := hc
      show (processSections env serverId rest
          { st with events := st.events ++ [EvStatus.warning],
                    cancelled := false }).events.getLast? = some EvStatus.cancelled
      exact ih _ rfl hc
    | ok items =>
      rw [hit] at hc
      replace hc : (processSections env serverId rest
          (processItems env serverId (s.secType = "show") items st)).cancelled = true := hc
      show (processSections env serverId rest
          (processItems env serverId (s.secType = "show") items st)).events.getLast? =
        some EvStatus.cancelled
      by_cases hpi :
          (processItems env serverId (s.secType = "show") items st).cancelled = true
      · rw [processSections_of_cancelled _ _ _ _ hpi] at hc ⊢
        exact processItems_cancelled env serverId _ items st h0 hpi
      · exact ih _ (Bool.eq_false_iff.mpr hpi) hc

/-- If one resource's processing observes the cancellation flag, its final
event is the cancelled event. -/
theorem processResource_cancelled (env : SyncEnv) (r : PlexResource) (st : SyncState)
    (h0 : st.cancelled = false)
    (hc : (processResource env r st).cancelled = true) :
    (processResource env r st).events.getLast? = some EvStatus.cancelled := by
  unfold processResource at hc ⊢
  by_cases hp : r.product ≠ "Plex Media Server"
  · rw [if_pos hp] at hc
    rw [h0] at hc
    exact Bool.noConfusion hc
  · rw [if_neg hp] at hc ⊢
    cases hconn : r.connectResult with
    | error e =>
      rw [hconn] at hc
      replace hc : st.cancelled = true := hc
      rw [h0] at hc
      exact Bool.noConfusion hc
    | ok oid =>
      cases oid with
      | none =>
        rw [hconn] at hc
        replace hc : st.cancelled = true := hc
        rw [h0] at hc
        exact Bool.noConfusion hc
      | some serverId =>
        rw [hconn] at hc
        replace hc : (if (!r.serverUpsertOk) = true then
            ({ st with events := st.events ++ [EvStatus.connecting] } : SyncState)
          else
            processSections env serverId
              (r.sections.filter (fun s => s.secType = "movie" || s.secType = "show"))
              { st with events := st.events ++
                  [EvStatus.connecting, EvStatus.counting, EvStatus.syncing] }).cancelled
              = true := hc
        show (if (!r.serverUpsertOk) = true then
            ({ st with events := st.events ++ [EvStatus.connecting] } : SyncState)
          else
            processSections env serverId
              (r.sections.filter (fun s => s.secType = "movie" || s.secType = "show"))
              { st with events := st.events ++
                  [EvStatus.connecting, EvStatus.counting, EvStatus.syncing] }).events.getLast?
            = some EvStatus.cancelled
        by_cases hup : (!r.serverUpsertOk) = true
        · rw [if_pos hup] at hc
          replace hc : st.cancelled = true := hc
          rw [h0] at hc
          exact Bool.noConfusion hc
        · rw [if_neg hup] at hc ⊢
          exact processSections_cancelled env serverId _ _ h0 hc

/-- If the resource loop observes the cancellation flag, its final event is
the cancelled event. -/
theorem processResources_cancelled (env : SyncEnv) (rs : List PlexResource) :
    ∀ st : SyncState, st.cancelled = false →
      (processResources env rs st).cancelled = true →
      (processResources env rs st).events.getLast? = some EvStatus.cancelled := by
  induction rs with
  | nil =>
    intro st h0 hc
    rw [processResources] at hc
    exact absurd hc (by simp [h0])
  | cons r rest ih =>
    intro st h0 hc
    simp only [processResources, h0, Bool.false_eq_true, if_false] at hc ⊢
    by_cases hr : (processResource env r st).cancelled = true
    · rw [processResources_of_cancelled _ _ _ hr] at hc ⊢
      exact processResource_cancelled env r st h0 hr
    · exact ih _ (Bool.eq_false_iff.mpr hr) hc

/-- C6: a run that observes the cancellation flag between items ends with a
cancelled terminal event and performs no orphan reconciliation — no catalog
item is removed by that run. -/
theorem sync_cancelled_no_removal (env : SyncEnv)
    (h : (sync_library_generator env).cancelled = true) :
    (sync_library_generator env).removedOrphans = [] ∧
    (sync_library_generator env).events.getLast? = some EvStatus.cancelled := by
  unfold sync_library_generator at h ⊢
  cases hres : env.resourcesResult with
  | error e =>
    rw [hres] at h
    replace h : (false : Bool) = true := h
    exact Bool.noConfusion h
  | ok rs =>
    rw [hres] at h
    replace h : (if rs.isEmpty = true then syncErrorResult
        else syncFinish env (processResources env rs initSyncState)).cancelled = true := h
    show (if rs.isEmpty = true then syncErrorResult
        else syncFinish env (processResources env rs initSyncState)).removedOrphans = [] ∧
      (if rs.isEmpty = true then syncErrorResult
        else syncFinish env (processResources env rs initSyncState)).events.getLast? =
        some EvStatus.cancelled
    by_cases hempty : rs.isEmpty = true
    · rw [if_pos hempty] at h
      exact Bool.noConfusion h
    · rw [if_neg hempty] at h ⊢
      unfold syncFinish at h ⊢
      by_cases hc : (processResources env rs initSyncState).cancelled = true
      · rw [if_pos hc] at h ⊢
        exact ⟨rfl, processResources_cancelled env rs initSyncState rfl hc⟩
      · rw [if_neg hc] at h
        exact Bool.noConfusion h

/-- A movies section holding one item with rating key 10. -/
def sectionMoviesA : LibSection :=
  { secType := "movie",
    itemsResult := Except.ok
      [{ ratingKey := 10, episodesResult := Except.ok [], upsertOk := true }] }

/-- A reachable server whose database id is 1. -/
def resourceA : PlexResource :=
  { product := "Plex Media Server", connectResult := Except.ok (some 1),
    serverUpsertOk := true, sections := [sectionMoviesA] }

/-- A known server whose connection attempt raises — it is skipped with a
warning event and none of its sections is iterated. -/
def resourceB : PlexResource :=
  { product := "Plex Media Server", connectResult := Except.error (),
    serverUpsertOk := true, sections := [] }

/-- Catalog row for the item on server 1 observed during the run. -/
def itemOnA : DbItem :=
  { id := "db-1", server_id := 1, plex_id := "10", title := "Movie A" }

/-- Catalog row belonging to the unreachable server (database id 2). -/
def itemOnB : DbItem :=
  { id := "db-2", server_id := 2, plex_id := "99", title := "Movie B" }

/-- Run with one reachable and one unreachable server, never cancelled. -/
def envPartialConn : SyncEnv :=
  { resourcesResult := Except.ok [resourceA, resourceB],
    cancelFlagAt := fun _ => false,
    dbItems := [itemOnA, itemOnB],
    deleteOk := fun _ => true }

/-- Run with one reachable server whose cancellation flag is set before the
first item. -/
def envCancelled : SyncEnv :=
  { resourcesResult := Except.ok [resourceA],
    cancelFlagAt := fun _ => true,
    dbItems := [itemOnA],
    deleteOk := fun _ => true }

/-- Witness for C6: the cancelled concrete run removes nothing and ends in
the cancelled event. -/
theorem sync_cancelled_no_removal_witness :
    (sync_library_generator envCancelled).removedOrphans = [] ∧
    (sync_library_generator envCancelled).events.getLast? = some EvStatus.cancelled :=
  sync_cancelled_no_removal envCancelled (by decide)

/-- C3 (amended): orphan reconciliation runs at the end of *every*
non-cancelled, non-errored run, over the whole catalog: it removes exactly
the rows whose `(server_id, plex_id)` was not seen during the run (and whose
delete call succeeds) — including rows that belong to servers that failed
connection and were never iterated. -/
theorem sync_cleanup_after_full_loop (env : SyncEnv) (rs : List PlexResource)
    (h1 : env.resourcesResult = Except.ok rs) (h2 : rs.isEmpty = false)
    (h3 : (processResources env rs initSyncState).cancelled = false) :
    (sync_library_generator env).removedOrphans =
      env.dbItems.filter (fun it =>
        !(processResources env rs initSyncState).seen.contains (it.server_id, it.plex_id)
          && env.deleteOk it) := by
  unfold sync_library_generator
  rw [h1]
  show (if rs.isEmpty = true then syncErrorResult
      else syncFinish env (processResources env rs initSyncState)).removedOrphans =
    env.dbItems.filter (fun it =>
      !(processResources env rs initSyncState).seen.contains (it.server_id, it.plex_id)
        && env.deleteOk it)
  rw [if_neg (by simp [h2])]
  unfold syncFinish
  rw [if_neg (by simp [h3])]
  rfl

/-- Counterexample to C3 as stated: server B fails connection (a warning is
emitted and nothing of it is iterated — no seen entry carries its id 2), yet
the end-of-run reconciliation still removes B's catalog row `itemOnB`. -/
theorem sync_partial_connectivity_counterexample :
    resourceB.connectResult = Except.error () ∧
    EvStatus.warning ∈ (sync_library_generator envPartialConn).events ∧
    ((sync_library_generator envPartialConn).seen.all (fun p => p.1 ≠ 2)) = true ∧
    (sync_library_generator envPartialConn).removedOrphans = [itemOnB] := by
  refine ⟨rfl, ?_, ?_, ?_⟩ <;> decide

/-- Witness for the amended C3 at the partial-connectivity run. -/
theorem sync_cleanup_after_full_loop_witness :
    (sync_library_generator envPartialConn).removedOrphans =
      envPartialConn.dbItems.filter (fun it =>
        !(processResources envPartialConn [resourceA, resourceB]
            initSyncState).seen.contains (it.server_id, it.plex_id)
          && envPartialConn.deleteOk it) :=
  sync_cleanup_after_full_loop envPartialConn [resourceA, resourceB] rfl rfl (by decide)

end SmartPlex
